import Mathlib

/-!
Verification of the warrant SRP client (src/warrant/aws_srp.py and
src/warrant/init module) against its natural-language specification.
Pure computations are embedded directly; external effects (network calls,
the OS CSPRNG, SHA-256/HMAC digests, the wall clock) enter as explicit
arguments of the embedded functions.
-/

/-- Hexadecimal digit characters used by Python's lowercase hex formatting:
digit values 0 to 9 map to the characters 0 to 9, values 10 to 15 to the
lowercase letters a to f. -/
def hexChar (d : Nat) : Char :=
  if d < 10 then Char.ofNat (48 + d) else Char.ofNat (87 + d)

/-- Fuel-indexed big-endian base-16 expansion: with fuel at least the number
of digits it yields the hex digits of n, most significant first, no leading
zero. -/
def hexDigitsAux : Nat → Nat → List Char
  | _, 0 => []
  | 0, _ + 1 => []
  | fuel + 1, n + 1 => hexDigitsAux fuel ((n + 1) / 16) ++ [hexChar ((n + 1) % 16)]

/-- Embeds long_to_hex (src/warrant/aws_srp.py line 43): Python percent-x
formatting of a non-negative integer, lowercase, no prefix, no leading zero;
the integer 0 renders as the single digit 0. -/
def long_to_hex (x : Nat) : List Char :=
  if x = 0 then ['0'] else hexDigitsAux x x

/-- The character set 89ABCDEFabcdef tested at line 64 of aws_srp.py: a
leading hex digit from this set means the high bit of the first byte is set. -/
def highChars : List Char :=
  ['8', '9', 'A', 'B', 'C', 'D', 'E', 'F', 'a', 'b', 'c', 'd', 'e', 'f']

/-- Leading hex digits whose first byte has a clear high bit. -/
def lowChars : List Char := ['0', '1', '2', '3', '4', '5', '6', '7']

/-- Padding core of pad_hex (aws_srp.py lines 62 to 66), shared by the integer
and string branches: prepend one zero digit if the length is odd, otherwise
prepend two zero digits if the leading digit has its high bit set. -/
def pad_hex_core (h : List Char) : List Char :=
  if h.length % 2 = 1 then '0' :: h
  else if h.headI ∈ highChars then '0' :: '0' :: h
  else h

/-- Embeds pad_hex (aws_srp.py lines 52 to 66) on its integer branch: the
argument is first converted with long_to_hex, then padded. (The string branch
of the source, which pads an already-hex string, is pad_hex_core itself.) -/
def pad_hex (x : Nat) : List Char := pad_hex_core (long_to_hex x)

theorem hexDigitsAux_mem {f n : Nat} {c : Char} (h : c ∈ hexDigitsAux f n) :
    ∃ d, d < 16 ∧ c = hexChar d := by
  induction f generalizing n with
  | zero =>
    cases n with
    | zero => simp [hexDigitsAux] at h
    | succ m => simp [hexDigitsAux] at h
  | succ f ih =>
    cases n with
    | zero => simp [hexDigitsAux] at h
    | succ m =>
      simp only [hexDigitsAux, List.mem_append, List.mem_singleton] at h
      rcases h with h | h
      · exact ih h
      · exact ⟨(m + 1) % 16, Nat.mod_lt _ (by norm_num), h⟩

theorem hexDigitsAux_succ_ne_nil (f n : Nat) : hexDigitsAux (f + 1) (n + 1) ≠ [] := by
  simp [hexDigitsAux]

theorem long_to_hex_ne_nil (x : Nat) : long_to_hex x ≠ [] := by
  unfold long_to_hex
  split
  · simp
  · next hx =>
    obtain ⟨m, rfl⟩ := Nat.exists_eq_succ_of_ne_zero hx
    exact hexDigitsAux_succ_ne_nil m m

theorem long_to_hex_mem {x : Nat} {c : Char} (h : c ∈ long_to_hex x) :
    ∃ d, d < 16 ∧ c = hexChar d := by
  unfold long_to_hex at h
  split at h
  · simp at h
    exact ⟨0, by norm_num, by rw [h]; decide⟩
  · exact hexDigitsAux_mem h

theorem hexChar_mem_highChars {d : Nat} (hd : d < 16) :
    hexChar d ∈ highChars ↔ 8 ≤ d := by
  interval_cases d <;> decide

theorem hexChar_mem_lowChars {d : Nat} (hd : d < 16) :
    hexChar d ∈ lowChars ↔ d < 8 := by
  interval_cases d <;> decide

/-- Claim C1: pad_hex converts a non-negative integer to lowercase hex with no
leading zero, prepends a single zero digit if the length is odd, otherwise two
zero digits if the first character is one of 89ABCDEFabcdef; so pad_hex of
0x8A is 008a, of 0x7F is 7f, of 0xA is 0a, and for every non-negative x the
result has even length and the high bit of its first byte is clear (its first
character is one of the digits 0 to 7). -/
theorem pad_hex_sign_guard :
    pad_hex 0x8A = ['0', '0', '8', 'a'] ∧
    pad_hex 0x7F = ['7', 'f'] ∧
    pad_hex 0xA = ['0', 'a'] ∧
    ∀ x : Nat, (pad_hex x).length % 2 = 0 ∧ (pad_hex x).headI ∈ lowChars := by
  refine ⟨by decide, by decide, by decide, ?_⟩
  intro x
  obtain ⟨c, t, hct⟩ := List.exists_cons_of_ne_nil (long_to_hex_ne_nil x)
  have hcmem : c ∈ long_to_hex x := by rw [hct]; exact List.mem_cons_self c t
  obtain ⟨d, hd16, hcd⟩ := long_to_hex_mem hcmem
  unfold pad_hex pad_hex_core
  rw [hct]
  split
  · next hodd =>
    refine ⟨?_, by rw [List.headI_cons]; decide⟩
    simp only [List.length_cons] at hodd ⊢
    omega
  · next hodd =>
    simp only [List.length_cons] at hodd
    split
    · next hhigh =>
      refine ⟨?_, by rw [List.headI_cons]; decide⟩
      simp only [List.length_cons]
      omega
    · next hhigh =>
      refine ⟨by simp only [List.length_cons]; omega, ?_⟩
      simp only [List.headI_cons] at hhigh ⊢
      rw [hcd] at hhigh ⊢
      rw [hexChar_mem_lowChars hd16]
      have := (hexChar_mem_highChars hd16).not.mp hhigh
      omega

/-- Embeds n_hex and self.big_n (aws_srp.py lines 16 to 23 and 128): the
3072-bit RFC 5054 group prime that hex_to_long parses from the concatenated
uppercase hex string of the source, written here as one hex literal with the
same digits. -/
def big_n : Nat := 0xFFFFFFFFFFFFFFFFC90FDAA22168C234C4C6628B80DC1CD129024E088A67CC74020BBEA63B139B22514A08798E3404DDEF9519B3CD3A431B302B0A6DF25F14374FE1356D6D51C245E485B576625E7EC6F44C42E9A637ED6B0BFF5CB6F406B7EDEE386BFB5A899FA5AE9F24117C4B1FE649286651ECE45B3DC2007CB8A163BF0598DA48361C55D39A69163FA8FD24CF5F83655D23DCA3AD961C62F356208552BB9ED529077096966D670C354E4ABC9804F1746C08CA18217C32905E462E36CE3BE39E772C180E86039B2783A2EC07A28FB5C55DF06F4C52C9DE2BCBF6955817183995497CEA956AE515D2261898FA051015728E5A8AAAC42DAD33170D04507A33A85521ABDF1CBA64ECFB850458DBEF0A8AEA71575D060C7DB3970F85A6E1E4C7ABF5AE8CDB0933D71E8C94E04A25619DCEE3D2261AD2EE6BF12FFA06D98A0864D87602733EC86A64521F2B18177B200CBBE117577A615D6C770988C0BAD946E208E24FA074E5AB3143DB5BFCE0FD108E4B82D120A93AD2CAFFFFFFFFFFFFFFFF

/-- Embeds g_hex and self.g (aws_srp.py lines 25 and 129): the generator 2. -/
def g : Nat := 2

/-- Embeds Python's three-argument pow on an arbitrary (possibly negative)
integer base with a positive modulus, as called at aws_srp.py lines 171, 173,
360 and 362: the power reduced with Euclidean remainder, so the result lies
in the interval from 0 up to the modulus, exactly as CPython computes it. -/
def pow_mod (b : Int) (e : Nat) (m : Nat) : Int := b ^ e % (m : Int)

/-- Embeds the shared-secret computation of get_password_authentication_key
(aws_srp.py lines 170 to 173) and, identically, get_device_authentication_key
(lines 359 to 362): g_mod_pow_xn is pow of g, x, N; int_value2 is the signed
intermediate, server B minus k times g_mod_pow_xn; the s value is pow of
int_value2, small a plus u times x, N. The inputs k (self.k), small_a
(self.small_a_value), server_b (the parsed SRP_B), x and u (the hash-derived
exponents) are arguments because they come from external hashing, randomness
or the server. -/
def srp_s_value (k small_a : Nat) (server_b : Int) (x u : Nat) : Int :=
  let g_mod_pow_xn : Int := pow_mod (g : Int) x big_n
  let int_value2 : Int := server_b - (k : Int) * g_mod_pow_xn
  pow_mod int_value2 (small_a + u * x) big_n

/-- Modelled from the spec: S is ((B minus k times g to the x, mod N) to the
(a plus U times x)) mod N, where B minus k times g to the x is computed in
signed integers and, when negative, N is added before exponentiation. -/
def srp_s_value_spec (k small_a : Nat) (server_b : Int) (x u : Nat) : Int :=
  let gx : Int := pow_mod (g : Int) x big_n
  let t : Int := server_b - (k : Int) * gx
  let t2 : Int := if t < 0 then t + (big_n : Int) else t
  t2 ^ (small_a + u * x) % (big_n : Int)

/-- Claim C2: in get_password_authentication_key (and identically in
get_device_authentication_key) the shared secret fed to HKDF equals the
specified S: the signed intermediate B minus k times g to the x with N added
when negative, raised to a plus U times x, reduced mod N. For every server
value B and all non-negative x, a, U, the pow call of the code on the possibly
negative base computes exactly that S. -/
theorem srp_s_value_eq_spec (k small_a : Nat) (server_b : Int) (x u : Nat) :
    srp_s_value k small_a server_b x u = srp_s_value_spec k small_a server_b x u := by
  have key : ∀ (t : Int) (e : Nat),
      t ^ e % (big_n : Int) = (if t < 0 then t + (big_n : Int) else t) ^ e % (big_n : Int) := by
    intro t e
    by_cases h : t < 0
    · rw [if_pos h]
      refine Int.ModEq.pow e ?_
      show t % (big_n : Int) = (t + (big_n : Int)) % (big_n : Int)
      conv_rhs => rw [show t + (big_n : Int) = t + (big_n : Int) * 1 by ring]
      rw [Int.add_mul_emod_self_left]
    · rw [if_neg h]
  exact key _ _

/-- Embeds generate_random_small_a (aws_srp.py lines 134 to 140): the value
read from 128 bytes of the OS CSPRNG, taken as the argument, reduced mod N. -/
def generate_random_small_a (random_long_int : Nat) : Nat := random_long_int % big_n

/-- Embeds calculate_a (aws_srp.py lines 142 to 153): A is g to the small a
mod N, and the ValueError raised when A mod N is zero is modelled as none. -/
def calculate_a (small_a_value : Nat) : Option Nat :=
  let big_a := g ^ small_a_value % big_n
  if big_a % big_n = 0 then none else some big_a

theorem big_n_odd : big_n % 2 = 1 := by decide

theorem g_pow_mod_big_n_ne_zero (a : Nat) : g ^ a % big_n ≠ 0 := by
  intro h
  have hdvd : big_n ∣ 2 ^ a := Nat.dvd_of_mod_eq_zero h
  obtain ⟨m, hm, hnm⟩ := (Nat.dvd_prime_pow Nat.prime_two).mp hdvd
  cases m with
  | zero =>
    rw [pow_zero] at hnm
    exact absurd hnm (by decide)
  | succ m =>
    have h2 : big_n % 2 = 0 := by
      rw [hnm, pow_succ]
      exact Nat.mul_mod_left (2 ^ m) 2
    rw [big_n_odd] at h2
    exact one_ne_zero h2

/-- Claim C4: for every 1024-bit (128-byte) CSPRNG draw reduced mod N by
generate_random_small_a, the public value A equals g to the a mod N and passes
the safety check: A mod N is nonzero, so the failure branch of calculate_a is
unreachable and AWSSRP session initialization always succeeds. -/
theorem calculate_a_never_fails (r : Nat) (hr : r < 2 ^ 1024) :
    calculate_a (generate_random_small_a r) =
      some (g ^ generate_random_small_a r % big_n) := by
  have h : (g ^ generate_random_small_a r % big_n) % big_n ≠ 0 := by
    rw [Nat.mod_mod_of_dvd _ dvd_rfl]
    exact g_pow_mod_big_n_ne_zero _
  show (if (g ^ generate_random_small_a r % big_n) % big_n = 0 then none
        else some (g ^ generate_random_small_a r % big_n)) =
      some (g ^ generate_random_small_a r % big_n)
  rw [if_neg h]

/-- Witness for claim C4 at the concrete CSPRNG draw zero. -/
theorem calculate_a_never_fails_witness :
    calculate_a (generate_random_small_a 0) =
      some (g ^ generate_random_small_a 0 % big_n) :=
  calculate_a_never_fails 0 (by norm_num)

/-- Embeds Python str.split with a one-character separator, as pool_id.split
with an underscore is used at aws_srp.py lines 167 and 206: the string is cut
at every separator occurrence and empty segments are kept, so the result has
one more segment than there are separators. -/
def splitOnChar (sep : Char) : List Char → List (List Char)
  | [] => [[]]
  | c :: cs =>
    if c = sep then [] :: splitOnChar sep cs
    else
      match splitOnChar sep cs with
      | [] => [[c]]
      | p :: rest => (c :: p) :: rest

theorem splitOnChar_eq (sep : Char) (l : List Char) :
    splitOnChar sep l =
      l.takeWhile (fun c => c ≠ sep) ::
        (if sep ∈ l then splitOnChar sep ((l.dropWhile (fun c => c ≠ sep)).tail)
         else []) := by
  induction l with
  | nil => simp [splitOnChar]
  | cons c cs ih =>
    by_cases hc : c = sep
    · subst hc
      simp [splitOnChar, List.takeWhile_cons, List.dropWhile_cons]
    · rw [splitOnChar, if_neg hc, ih]
      have hmem : (sep ∈ c :: cs) = (sep ∈ cs) := by
        simp [List.mem_cons, Ne.symm hc]
      simp only [List.takeWhile_cons, List.dropWhile_cons, hc, decide_not,
        decide_eq_true_eq, if_pos, hmem]
      simp [hc]

/-- Embeds the expression pool_id.split at an underscore, index 1, of
aws_srp.py lines 167 and 206: the second underscore-separated segment of the
pool id. The claims only involve pool ids containing an underscore, for which
Python's index 1 exists; the default branch of getD is then unreachable. -/
def pool_short_id (pool_id : List Char) : List Char :=
  (splitOnChar '_' pool_id).getD 1 []

/-- Embeds the full-password assembly of get_password_authentication_key,
aws_srp.py line 167: percent-formatting of the short pool id, the username
passed in (the USER_ID_FOR_SRP of the challenge, see line 203), a colon, and
the password. -/
def full_password (pool_id username password : List Char) : List Char :=
  pool_short_id pool_id ++ username ++ ':' :: password

/-- Modelled from the spec: the pool-short-id as the claim words it, namely
the whole substring of the pool id after the first underscore. -/
def after_first_underscore (pool_id : List Char) : List Char :=
  (pool_id.dropWhile (fun c => c ≠ '_')).tail

/-- Claim C3 counterexample: for the pool id aa_bb_cc (two underscores) the
code hashes the string built from the segment between the first and second
underscore (bb), not from the substring after the first underscore (bb_cc), so
the claim fails at this input. -/
theorem full_password_claim_cex :
    ¬ (full_password "aa_bb_cc".toList "u".toList "p".toList =
        after_first_underscore "aa_bb_cc".toList ++ "u".toList ++ ':' :: "p".toList) := by
  decide

/-- Claim C3 amended: for every pool id containing at least one underscore,
the full password hashed by get_password_authentication_key is the short pool
id followed by the username and a colon and the password, where the short pool
id is the segment of the pool id between the first underscore and the next
underscore (or the end of the string), not everything after the first
underscore. -/
theorem full_password_amended (pool_id username password : List Char)
    (h : '_' ∈ pool_id) :
    full_password pool_id username password =
      ((pool_id.dropWhile (fun c => c ≠ '_')).tail.takeWhile (fun c => c ≠ '_'))
        ++ username ++ ':' :: password := by
  unfold full_password pool_short_id
  rw [splitOnChar_eq, if_pos h, splitOnChar_eq]
  rfl

/-- Witness for the amended claim C3 at a concrete single-underscore pool id. -/
theorem full_password_amended_witness :
    full_password "eu-west-1_AbCd".toList "alice".toList "pw".toList =
      (("eu-west-1_AbCd".toList.dropWhile (fun c => c ≠ '_')).tail.takeWhile
          (fun c => c ≠ '_'))
        ++ "alice".toList ++ ':' :: "pw".toList :=
  full_password_amended _ _ _ (by decide)

/-- The AWSSRP session state (aws_srp.py lines 104 to 132): the constructor
arguments stored on self, plus the numeric SRP state computed at
initialization. The values k, small_a_value and large_a_value are kept as
plain fields because they are produced by external hashing and randomness. -/
structure AWSSRP where
  username : String
  password : String
  pool_id : String
  client_id : String
  client_secret : Option String
  device_key : Option String
  device_group_key : Option String
  device_password : Option String
  k : Nat
  small_a_value : Nat
  large_a_value : Nat
  deriving DecidableEq

/-- Embeds get_secret_hash (aws_srp.py lines 189 to 193). The base64 of an
HMAC-SHA256 digest is external crypto, passed in as hmacB64 taking the key and
then the message: the key is the client secret, the message the username
concatenated with the client id. -/
def get_secret_hash (hmacB64 : String → String → String)
    (username client_id client_secret : String) : String :=
  hmacB64 client_secret (username ++ client_id)

/-- The server challenge parameters consumed by process_challenge (aws_srp.py
lines 196 to 199) and by authenticate_user_with_mfa_token (line 255). -/
structure ChallengeParams where
  username : String
  user_id_for_srp : String
  salt : String
  srp_b : String
  secret_block : String
  deriving DecidableEq

/-- First-match association-list lookup, standing for Python dict indexing on
the response dictionaries built by the source (their keys are distinct). -/
def dictLookup {α : Type} : List (String × α) → String → Option α
  | [], _ => none
  | (key, v) :: rest, target => if key = target then some v else dictLookup rest target

/-- Key-containment test on a response dictionary. -/
def dictHasKey {α : Type} (d : List (String × α)) (target : String) : Bool :=
  (dictLookup d target).isSome

/-- Embeds the response assembly of process_challenge (aws_srp.py lines 210 to
220). The timestamp of line 201 and the HMAC signature of lines 203 to 209 are
produced by the clock and by external crypto and enter as arguments; the
conditional SECRET_HASH and DEVICE_KEY updates mirror lines 214 to 219. -/
def process_challenge_response (hmacB64 : String → String → String) (s : AWSSRP)
    (cp : ChallengeParams) (timestamp signature : String) : List (String × String) :=
  let response := [("TIMESTAMP", timestamp),
                   ("USERNAME", cp.user_id_for_srp),
                   ("PASSWORD_CLAIM_SECRET_BLOCK", cp.secret_block),
                   ("PASSWORD_CLAIM_SIGNATURE", signature)]
  let response2 :=
    match s.client_secret with
    | some cs =>
        response ++ [("SECRET_HASH", get_secret_hash hmacB64 s.username s.client_id cs)]
    | none => response
  match s.device_key with
  | some dk => response2 ++ [("DEVICE_KEY", dk)]
  | none => response2

/-- Claim C5: the PASSWORD_VERIFIER response built by process_challenge
carries USERNAME equal to the challenge's USER_ID_FOR_SRP (not the
client-supplied username) and PASSWORD_CLAIM_SECRET_BLOCK equal to the
challenge's SECRET_BLOCK verbatim; it contains a SECRET_HASH entry exactly
when a client secret is configured and a DEVICE_KEY entry exactly when a
device key is set on the session. -/
theorem process_challenge_response_shape (hmacB64 : String → String → String)
    (s : AWSSRP) (cp : ChallengeParams) (timestamp signature : String) :
    dictLookup (process_challenge_response hmacB64 s cp timestamp signature) "USERNAME"
        = some cp.user_id_for_srp ∧
    dictLookup (process_challenge_response hmacB64 s cp timestamp signature)
        "PASSWORD_CLAIM_SECRET_BLOCK" = some cp.secret_block ∧
    (dictHasKey (process_challenge_response hmacB64 s cp timestamp signature)
        "SECRET_HASH" = true ↔ s.client_secret ≠ none) ∧
    (dictHasKey (process_challenge_response hmacB64 s cp timestamp signature)
        "DEVICE_KEY" = true ↔ s.device_key ≠ none) := by
  rcases hcs : s.client_secret with _ | cs <;> rcases hdk : s.device_key with _ | dk <;>
    simp [process_challenge_response, dictLookup, dictHasKey, hcs, hdk]

/-- The initiate_auth result consumed by the entry points: the challenge name,
indexed directly at aws_srp.py lines 230, 256 and 286, and its parameters
(lines 231, 255, 257, 287). -/
structure InitResponse where
  challengeName : String
  challengeParameters : ChallengeParams
  deriving DecidableEq

/-- The respond_to_auth_challenge result as consumed by the entry points: the
optional ChallengeName obtained with a dict get (lines 236 to 240, 263) and
the Session read when a follow-up challenge is answered (lines 271, 301). -/
structure RespondResponse where
  challengeName : Option String
  session : String
  deriving DecidableEq

/-- Outcome of the authenticate_user control flow (aws_srp.py lines 222 to
245): the tokens response returned as is; the device-SRP follow-up flow of
line 237; or one of the raised errors (NotImplementedError for an unsupported
initial challenge, ForceChangePasswordException, MFATokenRequiredException). -/
inductive AuthOutcome where
  | unsupportedChallenge (name : String)
  | deviceFlow (tokens : RespondResponse)
  | forceChangePassword
  | mfaRequired
  | tokens (tokens : RespondResponse)
  deriving DecidableEq

/-- Embeds the control flow of authenticate_user (aws_srp.py lines 222 to
245) over the two server responses; the network calls and process_challenge
are external, so the function is driven by the responses alone. The branch
order mirrors the source: DEVICE_SRP_AUTH first, then NEW_PASSWORD_REQUIRED,
then SOFTWARE_TOKEN_MFA, else return the tokens. -/
def authenticate_user (initResp : InitResponse) (tokens : RespondResponse) : AuthOutcome :=
  if initResp.challengeName = "PASSWORD_VERIFIER" then
    if tokens.challengeName = some "DEVICE_SRP_AUTH" then .deviceFlow tokens
    else if tokens.challengeName = some "NEW_PASSWORD_REQUIRED" then .forceChangePassword
    else if tokens.challengeName = some "SOFTWARE_TOKEN_MFA" then .mfaRequired
    else .tokens tokens
  else .unsupportedChallenge initResp.challengeName

/-- Claim C6: on the password-only entry point authenticate_user, an initial
challenge other than PASSWORD_VERIFIER raises the unsupported-challenge error;
a SOFTWARE_TOKEN_MFA follow-up raises MFATokenRequiredException; a
NEW_PASSWORD_REQUIRED follow-up raises ForceChangePasswordException; and with
no further challenge the tokens response is returned. -/
theorem authenticate_user_dispatch :
    (∀ initResp tokens, initResp.challengeName ≠ "PASSWORD_VERIFIER" →
        authenticate_user initResp tokens =
          .unsupportedChallenge initResp.challengeName) ∧
    (∀ initResp tokens, initResp.challengeName = "PASSWORD_VERIFIER" →
        tokens.challengeName = some "SOFTWARE_TOKEN_MFA" →
        authenticate_user initResp tokens = .mfaRequired) ∧
    (∀ initResp tokens, initResp.challengeName = "PASSWORD_VERIFIER" →
        tokens.challengeName = some "NEW_PASSWORD_REQUIRED" →
        authenticate_user initResp tokens = .forceChangePassword) ∧
    (∀ initResp tokens, initResp.challengeName = "PASSWORD_VERIFIER" →
        tokens.challengeName = none →
        authenticate_user initResp tokens = .tokens tokens) := by
  refine ⟨?_, ?_, ?_, ?_⟩
  · intro i t h
    simp [authenticate_user, h]
  · intro i t h1 h2
    simp [authenticate_user, h1, h2]
  · intro i t h1 h2
    simp [authenticate_user, h1, h2]
  · intro i t h1 h2
    simp [authenticate_user, h1, h2]

/-- Witness for claim C6 at concrete server responses. -/
theorem authenticate_user_dispatch_witness :
    authenticate_user ⟨"CUSTOM_CHALLENGE", ⟨"u", "uid", "sa", "b", "sb"⟩⟩ ⟨none, "S0"⟩
        = .unsupportedChallenge "CUSTOM_CHALLENGE" ∧
    authenticate_user ⟨"PASSWORD_VERIFIER", ⟨"u", "uid", "sa", "b", "sb"⟩⟩
        ⟨some "SOFTWARE_TOKEN_MFA", "S0"⟩ = .mfaRequired ∧
    authenticate_user ⟨"PASSWORD_VERIFIER", ⟨"u", "uid", "sa", "b", "sb"⟩⟩
        ⟨some "NEW_PASSWORD_REQUIRED", "S0"⟩ = .forceChangePassword ∧
    authenticate_user ⟨"PASSWORD_VERIFIER", ⟨"u", "uid", "sa", "b", "sb"⟩⟩ ⟨none, "S0"⟩
        = .tokens ⟨none, "S0"⟩ :=
  ⟨authenticate_user_dispatch.1 _ _ (by decide),
   authenticate_user_dispatch.2.1 _ _ rfl rfl,
   authenticate_user_dispatch.2.2.1 _ _ rfl rfl,
   authenticate_user_dispatch.2.2.2 _ _ rfl rfl⟩

/-- The respond_to_auth_challenge call assembled for the SOFTWARE_TOKEN_MFA
challenge (aws_srp.py lines 264 to 272). -/
structure MfaChallengeCall where
  client_id : String
  challenge_name : String
  session : String
  challenge_responses : List (String × String)
  deriving DecidableEq

/-- Embeds the SOFTWARE_TOKEN_MFA respond_to_auth_challenge call built at
aws_srp.py lines 263 to 272: userSub is read from the initiate_auth response's
ChallengeParameters USERNAME (line 255), the session is the Session of the
PASSWORD_VERIFIER response (line 271), and the challenge responses carry that
userSub and the supplied MFA token. -/
def mfa_challenge_call (s : AWSSRP) (mfaToken : String)
    (initResp : InitResponse) (tokens : RespondResponse) : MfaChallengeCall :=
  { client_id := s.client_id
    challenge_name := "SOFTWARE_TOKEN_MFA"
    session := tokens.session
    challenge_responses :=
      [("USERNAME", initResp.challengeParameters.username),
       ("SOFTWARE_TOKEN_MFA_CODE", mfaToken)] }

/-- Outcome of the authenticate_user_with_mfa_token control flow (aws_srp.py
lines 247 to 276). -/
inductive MfaFlowOutcome where
  | unsupportedChallenge (name : String)
  | tokens (tokens : RespondResponse)
  | mfaRespond (call : MfaChallengeCall)
  deriving DecidableEq

/-- Embeds the control flow of authenticate_user_with_mfa_token (aws_srp.py
lines 247 to 276) over the two server responses; when the PASSWORD_VERIFIER
step returns the SOFTWARE_TOKEN_MFA challenge, the built MFA call is issued. -/
def authenticate_user_with_mfa_token (s : AWSSRP) (mfaToken : String)
    (initResp : InitResponse) (tokens : RespondResponse) : MfaFlowOutcome :=
  if initResp.challengeName = "PASSWORD_VERIFIER" then
    if tokens.challengeName = some "SOFTWARE_TOKEN_MFA" then
      .mfaRespond (mfa_challenge_call s mfaToken initResp tokens)
    else .tokens tokens
  else .unsupportedChallenge initResp.challengeName

/-- Claim C7: on the MFA entry point, when the PASSWORD_VERIFIER step returns
ChallengeName SOFTWARE_TOKEN_MFA, the SOFTWARE_TOKEN_MFA response carries
USERNAME taken from the server challenge's ChallengeParameters rather than the
caller-supplied username, together with SOFTWARE_TOKEN_MFA_CODE equal to the
supplied token, and is sent with Session equal to the Session of the
PASSWORD_VERIFIER response. -/
theorem mfa_flow_username_and_session (s : AWSSRP) (mfaToken : String)
    (initResp : InitResponse) (tokens : RespondResponse)
    (hpv : initResp.challengeName = "PASSWORD_VERIFIER")
    (hmfa : tokens.challengeName = some "SOFTWARE_TOKEN_MFA") :
    authenticate_user_with_mfa_token s mfaToken initResp tokens =
      .mfaRespond (mfa_challenge_call s mfaToken initResp tokens) ∧
    dictLookup (mfa_challenge_call s mfaToken initResp tokens).challenge_responses
        "USERNAME" = some initResp.challengeParameters.username ∧
    dictLookup (mfa_challenge_call s mfaToken initResp tokens).challenge_responses
        "SOFTWARE_TOKEN_MFA_CODE" = some mfaToken ∧
    (mfa_challenge_call s mfaToken initResp tokens).session = tokens.session ∧
    (initResp.challengeParameters.username ≠ s.username →
      dictLookup (mfa_challenge_call s mfaToken initResp tokens).challenge_responses
        "USERNAME" ≠ some s.username) := by
  refine ⟨by simp [authenticate_user_with_mfa_token, hpv, hmfa], ?_, ?_, rfl, ?_⟩
  · simp [mfa_challenge_call, dictLookup]
  · simp [mfa_challenge_call, dictLookup]
  · intro hne
    simp [mfa_challenge_call, dictLookup, hne]

/-- Witness for claim C7: the challenge parameters carry the canonical subject
u-123 while the caller-supplied username is alice; the call echoes u-123 with
the supplied code 654321 and session S1. -/
theorem mfa_flow_username_and_session_witness :
    authenticate_user_with_mfa_token
        ⟨"alice", "pw", "eu-west-1_A", "cid", none, none, none, none, 0, 0, 0⟩
        "654321" ⟨"PASSWORD_VERIFIER", ⟨"u-123", "uid", "sa", "b", "sb"⟩⟩
        ⟨some "SOFTWARE_TOKEN_MFA", "S1"⟩ =
      .mfaRespond (mfa_challenge_call
        ⟨"alice", "pw", "eu-west-1_A", "cid", none, none, none, none, 0, 0, 0⟩
        "654321" ⟨"PASSWORD_VERIFIER", ⟨"u-123", "uid", "sa", "b", "sb"⟩⟩
        ⟨some "SOFTWARE_TOKEN_MFA", "S1"⟩) ∧
    dictLookup (mfa_challenge_call
        ⟨"alice", "pw", "eu-west-1_A", "cid", none, none, none, none, 0, 0, 0⟩
        "654321" ⟨"PASSWORD_VERIFIER", ⟨"u-123", "uid", "sa", "b", "sb"⟩⟩
        ⟨some "SOFTWARE_TOKEN_MFA", "S1"⟩).challenge_responses "USERNAME"
      = some "u-123" ∧
    dictLookup (mfa_challenge_call
        ⟨"alice", "pw", "eu-west-1_A", "cid", none, none, none, none, 0, 0, 0⟩
        "654321" ⟨"PASSWORD_VERIFIER", ⟨"u-123", "uid", "sa", "b", "sb"⟩⟩
        ⟨some "SOFTWARE_TOKEN_MFA", "S1"⟩).challenge_responses "SOFTWARE_TOKEN_MFA_CODE"
      = some "654321" ∧
    (mfa_challenge_call
        ⟨"alice", "pw", "eu-west-1_A", "cid", none, none, none, none, 0, 0, 0⟩
        "654321" ⟨"PASSWORD_VERIFIER", ⟨"u-123", "uid", "sa", "b", "sb"⟩⟩
        ⟨some "SOFTWARE_TOKEN_MFA", "S1"⟩).session = "S1" ∧
    dictLookup (mfa_challenge_call
        ⟨"alice", "pw", "eu-west-1_A", "cid", none, none, none, none, 0, 0, 0⟩
        "654321" ⟨"PASSWORD_VERIFIER", ⟨"u-123", "uid", "sa", "b", "sb"⟩⟩
        ⟨some "SOFTWARE_TOKEN_MFA", "S1"⟩).challenge_responses "USERNAME"
      ≠ some "alice" := by
  obtain ⟨h1, h2, h3, h4, h5⟩ := mfa_flow_username_and_session
    ⟨"alice", "pw", "eu-west-1_A", "cid", none, none, none, none, 0, 0, 0⟩
    "654321" ⟨"PASSWORD_VERIFIER", ⟨"u-123", "uid", "sa", "b", "sb"⟩⟩
    ⟨some "SOFTWARE_TOKEN_MFA", "S1"⟩ rfl rfl
  exact ⟨h1, h2, h3, h4, h5 (by decide)⟩

/-- The device challenge parameters consumed by process_device_challenge
(aws_srp.py lines 368 to 371). -/
structure DeviceChallengeParams where
  username : String
  salt : String
  srp_b : String
  secret_block : String
  deriving DecidableEq

/-- Embeds the response assembly of process_device_challenge (aws_srp.py lines
385 to 394). Values are Option String because the DEVICE_KEY entry at line 389
stores the session's optional device key field directly; every other value is
present. The SECRET_HASH added at lines 390 to 393 is computed from the
USERNAME taken from the device challenge parameters (line 368). -/
def process_device_challenge_response (hmacB64 : String → String → String)
    (s : AWSSRP) (cp : DeviceChallengeParams) (timestamp signature : String) :
    List (String × Option String) :=
  let response := [("TIMESTAMP", some timestamp),
                   ("USERNAME", some cp.username),
                   ("PASSWORD_CLAIM_SECRET_BLOCK", some cp.secret_block),
                   ("PASSWORD_CLAIM_SIGNATURE", some signature),
                   ("DEVICE_KEY", s.device_key)]
  match s.client_secret with
  | some cs =>
      response ++
        [("SECRET_HASH", some (get_secret_hash hmacB64 cp.username s.client_id cs))]
  | none => response

/-- Claim C10: when a client secret is configured, the SECRET_HASH that
process_challenge adds to the PASSWORD_VERIFIER response is computed from the
constructor-supplied username on the session, not from the server-echoed
USER_ID_FOR_SRP filling that same response's USERNAME field; by contrast,
process_device_challenge computes its SECRET_HASH from the USERNAME taken from
the device challenge's parameters. -/
theorem secret_hash_username_sources (hmacB64 : String → String → String)
    (s : AWSSRP) (cp : ChallengeParams) (dcp : DeviceChallengeParams)
    (ts1 sig1 ts2 sig2 cs : String) (hcs : s.client_secret = some cs) :
    dictLookup (process_challenge_response hmacB64 s cp ts1 sig1) "SECRET_HASH"
      = some (get_secret_hash hmacB64 s.username s.client_id cs) ∧
    dictLookup (process_challenge_response hmacB64 s cp ts1 sig1) "USERNAME"
      = some cp.user_id_for_srp ∧
    dictLookup (process_device_challenge_response hmacB64 s dcp ts2 sig2) "SECRET_HASH"
      = some (some (get_secret_hash hmacB64 dcp.username s.client_id cs)) := by
  rcases hdk : s.device_key with _ | dk <;>
    simp [process_challenge_response, process_device_challenge_response,
      dictLookup, hcs, hdk]

/-- Witness for claim C10 with a configured client secret, a server-echoed
USER_ID_FOR_SRP different from the session username, and a concrete stand-in
for the external HMAC-base64 primitive. -/
theorem secret_hash_username_sources_witness :
    dictLookup (process_challenge_response (fun key msg => key ++ "-" ++ msg)
        ⟨"alice", "pw", "eu-west-1_A", "cid", some "s3cret", none, none, none, 0, 0, 0⟩
        ⟨"u", "uid", "sa", "b", "sb"⟩ "ts" "sig") "SECRET_HASH"
      = some (get_secret_hash (fun key msg => key ++ "-" ++ msg) "alice" "cid" "s3cret") ∧
    dictLookup (process_challenge_response (fun key msg => key ++ "-" ++ msg)
        ⟨"alice", "pw", "eu-west-1_A", "cid", some "s3cret", none, none, none, 0, 0, 0⟩
        ⟨"u", "uid", "sa", "b", "sb"⟩ "ts" "sig") "USERNAME" = some "uid" ∧
    dictLookup (process_device_challenge_response (fun key msg => key ++ "-" ++ msg)
        ⟨"alice", "pw", "eu-west-1_A", "cid", some "s3cret", none, none, none, 0, 0, 0⟩
        ⟨"devuser", "sa", "b", "sb"⟩ "ts" "sig") "SECRET_HASH"
      = some (some (get_secret_hash (fun key msg => key ++ "-" ++ msg)
          "devuser" "cid" "s3cret")) :=
  secret_hash_username_sources (fun key msg => key ++ "-" ++ msg)
    ⟨"alice", "pw", "eu-west-1_A", "cid", some "s3cret", none, none, none, 0, 0, 0⟩
    ⟨"u", "uid", "sa", "b", "sb"⟩ ⟨"devuser", "sa", "b", "sb"⟩ "ts" "sig" "ts" "sig"
    "s3cret" rfl

/-- The Cognito session state (warrant package root module, constructor at
lines 140 to 181): the identity fields, the nullable token slots and the
nullable device state. -/
structure CognitoSession where
  username : String
  client_id : String
  client_secret : Option String
  id_token : Option String
  access_token : Option String
  refresh_token : Option String
  token_type : Option String
  device_key : Option String
  device_group_key : Option String
  device_password : Option String
  deriving DecidableEq

/-- The two attribute names verify_token is called with as its id_name
argument (root module lines 377 to 379, 396 to 398, 422 to 424): the target of
the setattr at line 218. -/
inductive TokenSlot where
  | idToken
  | accessToken
  deriving DecidableEq

/-- The setattr of verify_token line 218, writing the token into the named
slot of the session. -/
def setTokenSlot (c : CognitoSession) (slot : TokenSlot) (token : String) :
    CognitoSession :=
  match slot with
  | .idToken => { c with id_token := some token }
  | .accessToken => { c with access_token := some token }

/-- Embeds verify_token (root module lines 205 to 219). The external pieces
enter as arguments: claims_token_use is the token_use claim parsed without
signature check at line 207, and sig_ok records whether the RS256 decode of
lines 212 to 215 succeeds against the resolved JWK. A raised
TokenVerificationException is an error result, produced before the setattr, so
no session update is visible to the caller; on success the token is stored
under the requested attribute name. The verified claims dictionary returned at
line 219 carries no session state and is not modelled. -/
def verify_token (c : CognitoSession) (token : String) (slot : TokenSlot)
    (token_use : String) (claims_token_use : String) (sig_ok : Bool) :
    Except String CognitoSession :=
  if claims_token_use ≠ token_use then
    .error "token use could not be verified"
  else if sig_ok = false then
    .error "token could not be verified"
  else
    .ok (setTokenSlot c slot token)

/-- The AuthenticationResult of a terminal step (root module lines 396 to 405
and 443 to 452): the four tokens plus the optional NewDeviceMetadata pair of
device key and device group key. -/
structure AuthenticationResult where
  idToken : String
  accessToken : String
  refreshToken : String
  tokenType : String
  newDeviceMetadata : Option (String × String)
  deriving DecidableEq

/-- Embeds the token-binding tail of authenticate (root module lines 396 to
405): verify and store the ID token, store the refresh token, verify and store
the access token, store the token type, then record any new-device metadata.
As in Python, an exception raised partway leaves the mutations already made in
place, so the function returns the session as mutated so far together with the
raised error, if any. -/
def authenticate_store (c : CognitoSession) (ar : AuthenticationResult)
    (id_claims_use access_claims_use : String) (id_sig_ok access_sig_ok : Bool) :
    CognitoSession × Option String :=
  match verify_token c ar.idToken .idToken "id" id_claims_use id_sig_ok with
  | .error e => (c, some e)
  | .ok c1 =>
    match verify_token { c1 with refresh_token := some ar.refreshToken }
        ar.accessToken .accessToken "access" access_claims_use access_sig_ok with
    | .error e => ({ c1 with refresh_token := some ar.refreshToken }, some e)
    | .ok c3 =>
      match ar.newDeviceMetadata with
      | some dm =>
          ({ c3 with
              token_type := some ar.tokenType
              device_key := some dm.1
              device_group_key := some dm.2 }, none)
      | none => ({ c3 with token_type := some ar.tokenType }, none)

/-- Embeds the token binding of new_password_challenge (root module lines 443
to 452): the ID, refresh, access and token-type values are assigned to the
session directly, with no verify_token call, then any new-device metadata is
recorded. -/
def new_password_challenge_store (c : CognitoSession) (ar : AuthenticationResult) :
    CognitoSession :=
  let c1 := { c with id_token := some ar.idToken,
                     refresh_token := some ar.refreshToken,
                     access_token := some ar.accessToken,
                     token_type := some ar.tokenType }
  match ar.newDeviceMetadata with
  | some dm => { c1 with device_key := some dm.1, device_group_key := some dm.2 }
  | none => c1

/-- Claim C8 counterexample: at the AUTHENTICATED terminal step of
new_password_challenge, a token that verify_token would reject (its unverified
token_use claim is access instead of id, and its signature check fails) is
nevertheless bound into the session's id_token attribute, so the
only-after-verification binding does not hold at every AUTHENTICATED terminal
step of the state machine. -/
theorem new_password_store_binds_unverified :
    verify_token
        ⟨"alice", "cid", none, none, none, none, none, none, none, none⟩
        "badtok" .idToken "id" "access" false
      = .error "token use could not be verified" ∧
    (new_password_challenge_store
        ⟨"alice", "cid", none, none, none, none, none, none, none, none⟩
        ⟨"badtok", "badacc", "ref", "Bearer", none⟩).id_token = some "badtok" ∧
    (⟨"alice", "cid", none, none, none, none, none, none, none, none⟩ :
        CognitoSession).id_token ≠ some "badtok" :=
  ⟨rfl, rfl, by decide⟩

theorem verify_token_ok {c c2 : CognitoSession} {token : String} {slot : TokenSlot}
    {use claims_use : String} {ok : Bool}
    (h : verify_token c token slot use claims_use ok = .ok c2) :
    c2 = setTokenSlot c slot token := by
  unfold verify_token at h
  split at h
  · cases h
  · split at h
    · cases h
    · cases h
      rfl

/-- Claim C8 amended: verify_token binds a token into the session only after
verification passes: a token_use mismatch or a failed RS256 decode raises
TokenVerificationException with no session update, and on success the token is
stored under the given attribute name. The same binding holds at the
AUTHENTICATED terminal step of authenticate (and the identical tails of
admin_authenticate and authenticate_with_mfa_token): a token whose
verification fails is never stored there. But new_password_challenge binds the
returned ID and access tokens without any verification. -/
theorem verify_token_binds_only_after_verification :
    (∀ c token slot use claims_use ok, claims_use ≠ use →
        verify_token c token slot use claims_use ok
          = .error "token use could not be verified") ∧
    (∀ c token slot use, verify_token c token slot use use false
        = .error "token could not be verified") ∧
    (∀ c token slot use, verify_token c token slot use use true
        = .ok (setTokenSlot c slot token)) ∧
    (∀ c ar cu au iok aok e, verify_token c ar.idToken .idToken "id" cu iok = .error e →
        authenticate_store c ar cu au iok aok = (c, some e)) ∧
    (∀ c ar cu au iok aok c2 e, authenticate_store c ar cu au iok aok = (c2, some e) →
        c2.access_token = c.access_token) ∧
    (∀ c ar, (new_password_challenge_store c ar).id_token = some ar.idToken ∧
        (new_password_challenge_store c ar).access_token = some ar.accessToken) := by
  refine ⟨?_, ?_, ?_, ?_, ?_, ?_⟩
  · intro c token slot use claims_use ok h
    simp [verify_token, h]
  · intro c token slot use
    simp [verify_token]
  · intro c token slot use
    simp [verify_token]
  · intro c ar cu au iok aok e h
    simp [authenticate_store, h]
  · intro c ar cu au iok aok c2 e h
    unfold authenticate_store at h
    split at h
    · cases h
      rfl
    · next c1 h1 =>
      split at h
      · cases h
        rw [verify_token_ok h1]
        rfl
      · split at h
        · injection h with ha hb
          cases hb
        · injection h with ha hb
          cases hb
  · intro c ar
    unfold new_password_challenge_store
    cases ar.newDeviceMetadata <;> simp

/-- Witness for the amended claim C8 at concrete sessions and tokens. -/
theorem verify_token_binds_witness :
    verify_token ⟨"a", "c", none, none, none, none, none, none, none, none⟩
        "tok" .idToken "id" "access" true = .error "token use could not be verified" ∧
    verify_token ⟨"a", "c", none, none, none, none, none, none, none, none⟩
        "tok" .idToken "id" "id" false = .error "token could not be verified" ∧
    verify_token ⟨"a", "c", none, none, none, none, none, none, none, none⟩
        "tok" .idToken "id" "id" true
      = .ok (setTokenSlot ⟨"a", "c", none, none, none, none, none, none, none, none⟩
          .idToken "tok") ∧
    authenticate_store ⟨"a", "c", none, none, none, none, none, none, none, none⟩
        ⟨"idt", "act", "ref", "Bearer", none⟩ "access" "access" true true
      = (⟨"a", "c", none, none, none, none, none, none, none, none⟩,
         some "token use could not be verified") ∧
    (⟨"a", "c", none, none, none, none, none, none, none, none⟩ :
        CognitoSession).access_token
      = (⟨"a", "c", none, none, none, none, none, none, none, none⟩ :
        CognitoSession).access_token ∧
    (new_password_challenge_store
        ⟨"a", "c", none, none, none, none, none, none, none, none⟩
        ⟨"idt", "act", "ref", "Bearer", none⟩).id_token = some "idt" := by
  obtain ⟨h1, h2, h3, h4, h5, h6⟩ := verify_token_binds_only_after_verification
  have ha : authenticate_store ⟨"a", "c", none, none, none, none, none, none, none, none⟩
      ⟨"idt", "act", "ref", "Bearer", none⟩ "access" "access" true true
      = (⟨"a", "c", none, none, none, none, none, none, none, none⟩,
         some "token use could not be verified") :=
    h4 _ _ _ _ _ _ _ rfl
  exact ⟨h1 _ _ _ _ _ _ (by decide), h2 _ _ _ _, h3 _ _ _ _, ha,
    h5 _ _ _ _ _ _ _ _ ha, (h6 _ _).1⟩

/-- Embeds can_register_device (root module lines 717 to 720): enrollment is
allowed when the session has a device group key and no device password yet. -/
def can_register_device (c : CognitoSession) : Bool :=
  c.device_group_key.isSome && c.device_password.isNone

/-- Embeds register_device (root module lines 722 to 747): the guard raises a
ValueError when can_register_device is false; otherwise the generated device
password (forty random bytes, base64 encoded, taken as the argument) is stored
on the session and returned. The confirm_device and update_device_status
network calls are external. -/
def register_device (c : CognitoSession) (generated_password : String) :
    Except String (CognitoSession × String) :=
  if !can_register_device c then
    .error "Device cannot be registered. This is not enabled in Cognito"
  else
    .ok ({ c with device_password := some generated_password }, generated_password)

/-- Claim C9: register_device fails with the device-registration-disallowed
error exactly when device_group_key is unset or device_password is already
set; when device_group_key is set and device_password is unset it succeeds and
populates device_password with the generated password, so an immediately
following second call fails. -/
theorem register_device_gate (c : CognitoSession) (pw : String) :
    ((∃ e, register_device c pw = .error e) ↔
        (c.device_group_key = none ∨ c.device_password ≠ none)) ∧
    (c.device_group_key ≠ none → c.device_password = none →
      register_device c pw = .ok ({ c with device_password := some pw }, pw) ∧
        ∀ pw2, ∃ e,
          register_device { c with device_password := some pw } pw2 = .error e) := by
  obtain ⟨u, cid, cs, idt, act, rt, tt, dk, dgk, dpw⟩ := c
  rcases dgk with _ | gk <;> rcases dpw with _ | dp <;>
    simp [register_device, can_register_device]

/-- Witness for claim C9: with a device group key present and no device
password, registration succeeds and stores the password, and a second call on
the updated session fails. -/
theorem register_device_gate_witness :
    register_device
        ⟨"a", "c", none, none, none, none, none, none, some "dgk", none⟩ "devpw"
      = .ok (⟨"a", "c", none, none, none, none, none, none, some "dgk", some "devpw"⟩,
             "devpw") ∧
    ∃ e, register_device
        ⟨"a", "c", none, none, none, none, none, none, some "dgk", some "devpw"⟩
        "other" = .error e := by
  obtain ⟨h1, h2⟩ := (register_device_gate
    ⟨"a", "c", none, none, none, none, none, none, some "dgk", none⟩ "devpw").2
    (by decide) rfl
  exact ⟨h1, h2 "other"⟩
